import Mathlib

/-!
Shallow embedding of the connectivity-state and store-and-forward subsystem
of the myrvm-edge agent, together with proofs of the specified properties.

Modelled source files:
* `src/src/services/offline_mode.py`  — `OfflineModeController`
* `src/src/services/local_db.py`      — `LocalDatabase` (SQLite tables as lists)
* `src/src/services/sync_manager.py`  — `SyncManager.sync_offline_transactions`
* `src/src/services/api_client.py`    — `RvmApiClient.heartbeat`
* `src/main.py`                       — the heartbeat section of the main loop

Machine time is modelled as `Nat` (an abstract, totally ordered clock);
SQLite tables are lists of rows in rowid (insertion) order; the network is
an explicit outcome oracle; callbacks are identified by opaque `Nat` tags
and "invoking" them is modelled by returning the list of invoked tags.
-/

/-- `EdgeMode` enum from `offline_mode.py`. -/
inductive EdgeMode
  | online
  | offline_guest
  | transitioning
deriving DecidableEq

/-- Mutable state of `OfflineModeController` (`offline_mode.py`, `__init__`).
The callback lists hold opaque tags for the registered callables; the
constant `max_failures_before_offline = 3` is never mutated and is modelled
as a global constant below. -/
structure ControllerState where
  current_mode : EdgeMode
  system_donation_user_id : Option Int
  last_heartbeat_success : Option Nat
  consecutive_failures : Nat
  mode_change_callbacks : List Nat
  reconnect_callbacks : List Nat
deriving DecidableEq

/-- `self.max_failures_before_offline` (`offline_mode.py` line 38). -/
def max_failures_before_offline : Nat := 3

/-- Initial controller state (`offline_mode.py`, `__init__`). -/
def initController : ControllerState :=
  { current_mode := .transitioning
    system_donation_user_id := none
    last_heartbeat_success := none
    consecutive_failures := 0
    mode_change_callbacks := []
    reconnect_callbacks := [] }

/-- `OfflineModeController._set_mode`: change the mode and fire the
mode-change callbacks, a no-op when the mode is unchanged.  Returns the
new state together with the tags of the mode-change callbacks invoked. -/
def set_mode (new_mode : EdgeMode) (s : ControllerState) : ControllerState × List Nat :=
  if new_mode = s.current_mode then (s, [])
  else ({ s with current_mode := new_mode }, s.mode_change_callbacks)

/-- A Python dict holding the heartbeat/handshake response fields relevant
to the controller: keys mapped to integer-or-None values. -/
abbrev RespData := List (String × Option Int)

/-- `response_data.get(key)`: `none` both when the key is missing and when
it is present with value `None`, mirroring `dict.get`. -/
def dict_get (key : String) (d : RespData) : Option Int :=
  match d.find? (fun p => p.1 == key) with
  | some p => p.2
  | none => none

/-- `OfflineModeController.on_heartbeat_success` (`offline_mode.py` lines
85-114).  Returns the new state, the invoked mode-change callback tags and
the invoked reconnect callback tags.  Note the Python truthiness tests:
`if response_data:` is false for `None` and for an empty dict, and
`if user_id:` is false for `None` and for `0`. -/
def on_heartbeat_success (response_data : Option RespData) (now : Nat)
    (s : ControllerState) : ControllerState × List Nat × List Nat :=
  let s1 := { s with last_heartbeat_success := some now, consecutive_failures := 0 }
  let s2 :=
    match response_data with
    | some d =>
      if d ≠ [] then
        match dict_get "system_donation_user_id" d with
        | some u => if u ≠ 0 then { s1 with system_donation_user_id := some u } else s1
        | none => s1
      else s1
    | none => s1
  if s2.current_mode = .offline_guest then
    let (s3, mc) := set_mode .online s2
    (s3, mc, s3.reconnect_callbacks)
  else if s2.current_mode = .transitioning then
    let (s3, mc) := set_mode .online s2
    (s3, mc, [])
  else (s2, [], [])

/-- `OfflineModeController.on_heartbeat_failure` (`offline_mode.py` lines
116-133).  Returns the new state and the invoked mode-change callback
tags. -/
def on_heartbeat_failure (s : ControllerState) : ControllerState × List Nat :=
  let s1 := { s with consecutive_failures := s.consecutive_failures + 1 }
  if max_failures_before_offline ≤ s1.consecutive_failures then
    if s1.current_mode ≠ .offline_guest then set_mode .offline_guest s1
    else (s1, [])
  else (s1, [])

/-- State after `n` consecutive `on_heartbeat_failure` calls starting from
the freshly constructed controller, with no intervening success. -/
def iterate_failures : Nat → ControllerState
  | 0 => initController
  | n + 1 => (on_heartbeat_failure (iterate_failures n)).1

/-! ### Heartbeat protocol driver and main loop (C3) -/

/-- Parsed JSON body of a 2xx heartbeat response (`api_client.py`):
whether `data.get('status') == 'success'` and the `commands` key when
present. -/
structure HbBody where
  status_success : Bool
  commands : Option (List String)
deriving DecidableEq

/-- Outcome of the heartbeat HTTP exchange.  `exc` covers every raised
exception: network error, timeout, and a non-2xx status (via
`raise_for_status`). -/
inductive HbOutcome
  | exc
  | ok (body : HbBody)
deriving DecidableEq

/-- `RvmApiClient.heartbeat` (`src/src/services/api_client.py` lines
141-169).  Every return path of the Python function returns a list (the
`except` branch returns `[]`), hence the result is always `some _`; the
`Option` records that the caller in `main.py` tests `commands is not
None`. -/
def heartbeat : HbOutcome → Option (List String)
  | .exc => some []
  | .ok b =>
    if b.status_success then
      match b.commands with
      | some cs => some cs
      | none => some []
    else some []

/-- One heartbeat round of the main loop (`src/main.py` lines 441-455):
run `client.heartbeat`, then branch on `commands is not None`.  The
response dict passed to `on_heartbeat_success` is
`{'system_donation_user_id': getattr(client, '_system_donation_user_id', None)}`;
the attribute `_system_donation_user_id` is never assigned anywhere in the
repository, so the value is always `None`.  Returns the controller state,
the commands handed to `handle_commands`, and whether
`on_heartbeat_failure` was invoked in this round. -/
def mainLoopStep (o : HbOutcome) (now : Nat) (s : ControllerState) :
    ControllerState × List String × Bool :=
  match heartbeat o with
  | some cmds =>
    ((on_heartbeat_success (some [("system_donation_user_id", none)]) now s).1, cmds, false)
  | none => ((on_heartbeat_failure s).1, [], true)

/-! ### Theorems for C1, C5, C3 -/

theorem iterate_failures_consecutive (n : Nat) :
    (iterate_failures n).consecutive_failures = n := by
  induction n with
  | zero => rfl
  | succ n ih =>
    simp only [iterate_failures, on_heartbeat_failure, set_mode, max_failures_before_offline]
    split
    · split
      · split <;> simp [ih]
      · simp [ih]
    · simp [ih]

theorem iterate_failures_mode (n : Nat) :
    (iterate_failures n).current_mode =
      if 3 ≤ n then .offline_guest else .transitioning := by
  induction n with
  | zero => rfl
  | succ n ih =>
    have hcf := iterate_failures_consecutive n
    simp only [iterate_failures, on_heartbeat_failure, set_mode, max_failures_before_offline]
    by_cases h3 : 3 ≤ n + 1
    · by_cases h3' : 3 ≤ n
      · have : (iterate_failures n).current_mode = .offline_guest := by simp [ih, h3']
        simp [hcf, h3, this]
      · have : (iterate_failures n).current_mode = .transitioning := by simp [ih, h3']
        simp [hcf, h3, this]
    · have hn : ¬ 3 ≤ n := by omega
      have : (iterate_failures n).current_mode = .transitioning := by simp [ih, hn]
      simp [hcf, h3, this]

/-- C1: starting from the initial state, after any sequence of `n`
`on_heartbeat_failure` calls with no intervening success the mode is
OFFLINE_GUEST exactly when the failure count `n` has reached 3, and not
after any shorter sequence. -/
theorem c1_offline_guest_iff_three_failures (n : Nat) :
    (iterate_failures n).current_mode = .offline_guest ↔ 3 ≤ n := by
  rw [iterate_failures_mode]
  split <;> simp_all

/-- C5: `on_heartbeat_success` always leaves the controller ONLINE, and it
invokes the registered reconnect callbacks (each exactly once, in
registration order) precisely when the previous mode was OFFLINE_GUEST —
in particular never from TRANSITIONING and never when already ONLINE. -/
theorem c5_reconnect_only_on_offline_edge (response_data : Option RespData)
    (now : Nat) (s : ControllerState) :
    (on_heartbeat_success response_data now s).1.current_mode = .online ∧
    (on_heartbeat_success response_data now s).2.2 =
      (if s.current_mode = .offline_guest then s.reconnect_callbacks else []) := by
  simp only [on_heartbeat_success, set_mode]
  rcases response_data with _ | d
  · rcases s with ⟨m, _, _, _, _, _⟩
    cases m <;> simp
  · rcases s with ⟨m, _, _, _, _, _⟩
    cases m <;> by_cases hd : d = [] <;>
      simp [hd] <;> rcases hu : dict_get "system_donation_user_id" d with _ | u <;>
      simp [hu] <;> by_cases h0 : u = 0 <;> simp [h0]

/-- C3 (divergence witness): when the heartbeat HTTP call fails, the
protocol driver returns `[]` (no commands, as specified) but — because
`heartbeat` can never return `None` — the main loop takes the
`commands is not None` branch: `on_heartbeat_failure` is not invoked and
`on_heartbeat_success` resets the failure counter to 0, for every
controller state. -/
theorem c3_failed_heartbeat_reported_as_success :
    heartbeat .exc = some [] ∧
    ∀ (now : Nat) (s : ControllerState),
      (mainLoopStep .exc now s).2.1 = [] ∧
      (mainLoopStep .exc now s).2.2 = false ∧
      (mainLoopStep .exc now s).1.consecutive_failures = 0 := by
  refine ⟨rfl, fun now s => ?_⟩
  refine ⟨rfl, rfl, ?_⟩
  simp only [mainLoopStep, heartbeat, on_heartbeat_success, set_mode, dict_get]
  rcases s with ⟨m, _, _, _, _, _⟩
  cases m <;> simp [List.find?]

/-! ### Durable transaction store (`local_db.py`) -/

/-- `status` column of `offline_transactions` (`'pending'` / `'synced'`). -/
inductive TxStatus
  | pending
  | synced
deriving DecidableEq

/-- One row of the `offline_transactions` table (`local_db.py` lines
52-62).  `timestamp` (the `datetime.utcnow()` ISO string) and
`created_at` (`CURRENT_TIMESTAMP`) are both modelled as the abstract
clock value at insertion. -/
structure TxRow where
  id : Nat
  session_id : String
  user_id : Int
  status : TxStatus
  timestamp : Nat
  synced_at : Option Nat
  created_at : Nat
deriving DecidableEq

/-- One row of the `offline_transaction_items` table (`local_db.py` lines
65-74).  `weight REAL` is modelled as `Rat`: the store never computes with
it, it is only written and read back. -/
structure ItemRow where
  id : Nat
  transaction_id : Nat
  bottle_type : String
  weight : Rat
  points : Int
deriving DecidableEq

/-- One row of the `edge_activity_logs` table (`local_db.py` lines 77-85). -/
structure LogRow where
  event_type : String
  status : String
  details : Option String
deriving DecidableEq

/-- A member of the Python `items` list handed to
`create_offline_transaction`: a dict read with
`item.get('bottle_type', 'unknown')`, `item.get('weight', 0)`,
`item.get('points', 0)`, so each field may be missing. -/
structure ItemInput where
  bottle_type : Option String
  weight : Option Rat
  points : Option Int
deriving DecidableEq

/-- An item dict that supplies all three fields. -/
def mkItemInput (p : String × Rat × Int) : ItemInput :=
  { bottle_type := some p.1, weight := some p.2.1, points := some p.2.2 }

/-- The SQLite file behind `LocalDatabase`: each table is the list of its
rows in rowid order, together with the AUTOINCREMENT counters and the
in-memory `system_donation_user_id` cache. -/
structure DbState where
  next_tx_id : Nat
  next_item_id : Nat
  transactions : List TxRow
  items : List ItemRow
  logs : List LogRow
  system_donation_user_id : Option Int
deriving DecidableEq

/-- `LocalDatabase.log_activity` (`local_db.py` lines 227-238). -/
def log_activity (event_type status : String) (details : Option String)
    (db : DbState) : DbState :=
  { db with logs := db.logs ++ [{ event_type := event_type, status := status, details := details }] }

/-- The item rows inserted by the `for item in items` loop of
`create_offline_transaction`, in list order, with AUTOINCREMENT ids
starting at `next_id`. -/
def itemRowsFor (tid : Nat) : Nat → List ItemInput → List ItemRow
  | _, [] => []
  | next_id, it :: rest =>
    { id := next_id
      transaction_id := tid
      bottle_type := it.bottle_type.getD "unknown"
      weight := it.weight.getD 0
      points := it.points.getD 0 } :: itemRowsFor tid (next_id + 1) rest

/-- `LocalDatabase.create_offline_transaction` (`local_db.py` lines
104-159).  `uuid` stands for the value drawn from `uuid.uuid4()`; `now`
is the clock.  The `session_id` column is declared `UNIQUE NOT NULL`
(`local_db.py` line 55), so inserting a session id already present in
the table raises `IntegrityError`: the `except` handler rolls back and
returns `None`.  `failAt = some k` models any other storage exception:
`k < items.length + 1` fails the `k`-th INSERT (0 is the transaction
row, 1.. the item rows) before the commit, which rolls everything back;
`k = items.length + 1` fails the `log_activity` write, which runs on its
own connection *after* `conn.commit()` (`local_db.py` line 150), so the
handler returns `None` although the transaction and item rows are
already durable — only the activity-log row is missing.  Note the
Python truthiness test `if not self.system_donation_user_id:` rejects
both `None` and `0`. -/
def create_offline_transaction (items : List ItemInput) (uuid : String)
    (now : Nat) (failAt : Option Nat) (db : DbState) : Option String × DbState :=
  match db.system_donation_user_id with
  | none => (none, db)
  | some u =>
    if u = 0 then (none, db)
    else
      let session_id := "offline-" ++ uuid
      if session_id ∈ db.transactions.map (fun t => t.session_id) then (none, db)
      else
        let failsPre : Bool :=
          match failAt with
          | some k => decide (k < items.length + 1)
          | none => false
        if failsPre then (none, db)
        else
          let tid := db.next_tx_id
          let tx : TxRow :=
            { id := tid, session_id := session_id, user_id := u, status := .pending
              timestamp := now, synced_at := none, created_at := now }
          let rows := itemRowsFor tid db.next_item_id items
          let db1 := { db with
            next_tx_id := tid + 1
            next_item_id := db.next_item_id + items.length
            transactions := db.transactions ++ [tx]
            items := db.items ++ rows }
          let failsLog : Bool :=
            match failAt with
            | some k => decide (k = items.length + 1)
            | none => false
          if failsLog then (none, db1)
          else
            (some session_id,
             log_activity "transaction_created" "completed"
               (some ("Session: " ++ session_id)) db1)

/-- Stable insertion of a row into a list ordered by `created_at`
(ascending), keeping insertion order among equal keys. -/
def orderInsert (x : TxRow) : List TxRow → List TxRow
  | [] => [x]
  | y :: ys => if x.created_at ≤ y.created_at then x :: y :: ys else y :: orderInsert x ys

/-- The `ORDER BY created_at ASC` of `get_pending_transactions`, as a
stable sort of the filtered rows. -/
def orderByCreatedAt : List TxRow → List TxRow
  | [] => []
  | x :: xs => orderInsert x (orderByCreatedAt xs)

/-- The per-transaction item query of `get_pending_transactions`
(`local_db.py` lines 176-182): `bottle_type, weight, points` of the item
rows with the given `transaction_id`, in rowid order. -/
def itemsFor (allItems : List ItemRow) (tid : Nat) : List (String × Rat × Int) :=
  (allItems.filter (fun it => decide (it.transaction_id = tid))).map
    (fun it => (it.bottle_type, it.weight, it.points))

/-- One element of the list returned by `get_pending_transactions`. -/
structure PendingTx where
  id : Nat
  session_id : String
  user_id : Int
  timestamp : Nat
  items : List (String × Rat × Int)
deriving DecidableEq

/-- `LocalDatabase.get_pending_transactions` (`local_db.py` lines
161-193): the rows with `status = 'pending'`, ordered by `created_at`
ascending, each with its items. -/
def get_pending_transactions (db : DbState) : List PendingTx :=
  (orderByCreatedAt (db.transactions.filter (fun t => decide (t.status = .pending)))).map
    (fun t =>
      { id := t.id, session_id := t.session_id, user_id := t.user_id
        timestamp := t.timestamp, items := itemsFor db.items t.id })

/-- `LocalDatabase.get_pending_count` (`local_db.py` lines 216-223). -/
def get_pending_count (db : DbState) : Nat :=
  (db.transactions.filter (fun t => decide (t.status = .pending))).length

/-- `LocalDatabase.mark_transactions_synced` (`local_db.py` lines
195-214): a no-op on the empty list, otherwise one UPDATE setting
`status = 'synced'` and `synced_at = now` on every row whose id is in the
list — with no guard on the current status. -/
def mark_transactions_synced (transaction_ids : List Nat) (now : Nat)
    (db : DbState) : DbState :=
  if transaction_ids = [] then db
  else
    { db with transactions := db.transactions.map (fun t =>
        if t.id ∈ transaction_ids then { t with status := .synced, synced_at := some now }
        else t) }

/-! ### Sync engine (`sync_manager.py`) -/

/-- Outcome of the bulk-sync HTTP exchange inside
`sync_offline_transactions`.  `http status cnt` is a completed response
with the given status code and, for the 200-branch, the optional
`synced_count` field of its JSON body; the other constructors are the
three `except` clauses. -/
inductive NetOutcome
  | http (status : Nat) (synced_count : Option Int)
  | timeout
  | client_error (msg : String)
  | other_exc (msg : String)
deriving DecidableEq

/-- The result dict returned by `sync_offline_transactions`. -/
inductive SyncResult
  | skipped
  | success (synced_count : Int)
  | error (reason : String)
deriving DecidableEq

/-- Whether the network outcome is a failure of the attempt: timeout,
connection error, any other exception, or a non-success HTTP status. -/
def netFailure : NetOutcome → Bool
  | .http status _ => decide (status ≠ 200)
  | .timeout => true
  | .client_error _ => true
  | .other_exc _ => true

/-- `SyncManager.sync_offline_transactions` (`sync_manager.py` lines
46-144).  Arguments: the network oracle, the clock, the `is_syncing`
flag at entry and the database.  Returns the `is_syncing` flag after the
call (the `finally` clears it on every path that set it), the database,
and the result dict.  The bulk payload built from `pending` is pure and
is absorbed into the `NetOutcome` oracle; the early `skipped` return
happens before the flag is set and before any database access. -/
def sync_offline_transactions (net : NetOutcome) (now : Nat)
    (is_syncing : Bool) (db : DbState) : Bool × DbState × SyncResult :=
  if is_syncing then (is_syncing, db, .skipped)
  else
    let pending := get_pending_transactions db
    if pending = [] then (false, db, .success 0)
    else
      let db1 := log_activity "sync_start" "pending"
        (some ("Syncing " ++ toString pending.length ++ " transactions")) db
      match net with
      | .http status cnt =>
        if status = 200 then
          let synced_count := cnt.getD (pending.length : Int)
          let transaction_ids := pending.map (fun t => t.id)
          let db2 := mark_transactions_synced transaction_ids now db1
          let db3 := log_activity "sync_complete" "completed"
            (some ("Synced " ++ toString synced_count ++ " transactions")) db2
          (false, db3, .success synced_count)
        else
          (false,
           log_activity "sync_failed" "pending" (some ("HTTP " ++ toString status)) db1,
           .error ("HTTP " ++ toString status))
      | .timeout =>
        (false, log_activity "sync_timeout" "pending" (some "Request timed out") db1,
         .error "timeout")
      | .client_error m =>
        (false, log_activity "sync_error" "pending" (some m) db1, .error m)
      | .other_exc m =>
        (false, log_activity "sync_error" "pending" (some m) db1, .error m)

/-! ### Concrete states used by counterexamples and witnesses -/

/-- A store holding a single pending transaction with id 1 and no items. -/
def dbOnePending : DbState :=
  { next_tx_id := 2, next_item_id := 1
    transactions := [{ id := 1, session_id := "offline-x", user_id := 7, status := .pending
                       timestamp := 0, synced_at := none, created_at := 0 }]
    items := [], logs := [], system_donation_user_id := some 7 }

/-- An empty store whose cached system-donation user id is `0`. -/
def dbUserZero : DbState :=
  { next_tx_id := 1, next_item_id := 1, transactions := [], items := []
    logs := [], system_donation_user_id := some 0 }

/-- An empty store whose cached system-donation user id is `7`. -/
def dbUserSeven : DbState :=
  { next_tx_id := 1, next_item_id := 1, transactions := [], items := []
    logs := [], system_donation_user_id := some 7 }

/-- A store with one synced and two pending transactions, the pending ones
created at clock values 1 and 2. -/
def dbMixed : DbState :=
  { next_tx_id := 4, next_item_id := 1
    transactions :=
      [{ id := 1, session_id := "offline-a", user_id := 7, status := .synced
         timestamp := 0, synced_at := some 5, created_at := 0 },
       { id := 2, session_id := "offline-b", user_id := 7, status := .pending
         timestamp := 1, synced_at := none, created_at := 1 },
       { id := 3, session_id := "offline-c", user_id := 7, status := .pending
         timestamp := 2, synced_at := none, created_at := 2 }]
    items := [], logs := [], system_donation_user_id := some 7 }

/-! ### Helper lemmas -/

theorem log_activity_transactions (e st : String) (d : Option String) (db : DbState) :
    (log_activity e st d db).transactions = db.transactions := rfl

theorem log_activity_items (e st : String) (d : Option String) (db : DbState) :
    (log_activity e st d db).items = db.items := rfl

theorem mark_transactions_synced_log_activity (ids : List Nat) (now : Nat)
    (e st : String) (d : Option String) (db : DbState) :
    (mark_transactions_synced ids now (log_activity e st d db)).transactions
      = (mark_transactions_synced ids now db).transactions := by
  by_cases hids : ids = [] <;> simp [mark_transactions_synced, log_activity, hids]

theorem mem_orderInsert (x a : TxRow) (l : List TxRow) :
    a ∈ orderInsert x l ↔ a = x ∨ a ∈ l := by
  induction l with
  | nil => simp [orderInsert]
  | cons y ys ih =>
    simp only [orderInsert]
    split
    · simp
    · simp [ih]
      tauto

theorem mem_orderByCreatedAt (a : TxRow) (l : List TxRow) :
    a ∈ orderByCreatedAt l ↔ a ∈ l := by
  induction l with
  | nil => simp [orderByCreatedAt]
  | cons x xs ih => simp [orderByCreatedAt, mem_orderInsert, ih]

theorem orderInsert_of_le (x : TxRow) (l : List TxRow)
    (h : ∀ y ∈ l, x.created_at ≤ y.created_at) : orderInsert x l = x :: l := by
  cases l with
  | nil => rfl
  | cons y ys => simp [orderInsert, h y (List.mem_cons_self y ys)]

theorem orderByCreatedAt_eq_self (l : List TxRow)
    (h : l.Pairwise (fun a b => a.created_at ≤ b.created_at)) :
    orderByCreatedAt l = l := by
  induction l with
  | nil => rfl
  | cons x xs ih =>
    rw [List.pairwise_cons] at h
    rw [orderByCreatedAt, ih h.2, orderInsert_of_le x xs h.1]

theorem itemRowsFor_transaction_id (tid : Nat) :
    ∀ (next_id : Nat) (items : List ItemInput),
      ∀ r ∈ itemRowsFor tid next_id items, r.transaction_id = tid := by
  intro next_id items
  induction items generalizing next_id with
  | nil => simp [itemRowsFor]
  | cons it rest ih =>
    intro r hr
    rw [itemRowsFor] at hr
    rcases List.mem_cons.mp hr with h | h
    · rw [h]
    · exact ih (next_id + 1) r h

theorem itemRowsFor_roundtrip (tid : Nat) :
    ∀ (next_id : Nat) (items : List (String × Rat × Int)),
      (itemRowsFor tid next_id (items.map mkItemInput)).map
          (fun r => (r.bottle_type, r.weight, r.points)) = items := by
  intro next_id items
  induction items generalizing next_id with
  | nil => simp [itemRowsFor]
  | cons p rest ih => simp [itemRowsFor, mkItemInput, ih (next_id + 1)]

/-! ### C4: idempotence of mark_synced -/

/-- C4 counterexample: marking the same id set twice at successive clock
values does not give the state of marking once — the second call
overwrites `synced_at`. -/
theorem c4_counterexample :
    mark_transactions_synced [1] 1 (mark_transactions_synced [1] 0 dbOnePending)
      ≠ mark_transactions_synced [1] 0 dbOnePending := by decide

/-- C4 amended: a second `mark_transactions_synced` call with the same id
set collapses to a single call at the second call's time — statuses and
membership are as after one call, but `synced_at` of the given ids is
overwritten with the later time (the UPDATE has no guard on the current
status).  With equal timestamps this is literal idempotence. -/
theorem c4_mark_twice_eq_mark_at_second_time
    (transaction_ids : List Nat) (t1 t2 : Nat) (db : DbState) :
    mark_transactions_synced transaction_ids t2
        (mark_transactions_synced transaction_ids t1 db)
      = mark_transactions_synced transaction_ids t2 db := by
  by_cases hids : transaction_ids = []
  · simp [mark_transactions_synced, hids]
  · simp only [mark_transactions_synced, if_neg hids, List.map_map]
    congr 1
    apply List.map_congr_left
    intro t _
    by_cases hmem : t.id ∈ transaction_ids <;> simp [hmem]

/-! ### C9: single-flight guard -/

/-- C9: a `sync()` call that finds the `is_syncing` flag set returns the
skipped result immediately, with the store untouched and independent of
the network; and every completing call (any store content, any network
outcome) leaves the flag cleared. -/
theorem c9_single_flight (net : NetOutcome) (now : Nat) (db : DbState) :
    sync_offline_transactions net now true db = (true, db, .skipped) ∧
    (sync_offline_transactions net now false db).1 = false := by
  constructor
  · rfl
  · simp only [sync_offline_transactions]
    split
    · rfl
    · split
      · rfl
      · cases net with
        | http status cnt =>
          simp only
          split <;> rfl
        | timeout => rfl
        | client_error m => rfl
        | other_exc m => rfl

/-! ### C2: failed sync leaves every transaction untouched -/

/-- C2: if the sync attempt fails in any way (timeout, connection error,
other exception, or non-success HTTP status) after reading a non-empty
pending set, the transactions table is unchanged — every transaction that
was pending is still pending with the same `synced_at` — and the call
returns an error result. -/
theorem c2_failure_leaves_all_pending (net : NetOutcome) (now : Nat) (db : DbState)
    (hfail : netFailure net = true)
    (hpend : get_pending_transactions db ≠ []) :
    (sync_offline_transactions net now false db).2.1.transactions = db.transactions ∧
    ∃ reason, (sync_offline_transactions net now false db).2.2 = SyncResult.error reason := by
  simp only [sync_offline_transactions, if_neg hpend]
  cases net with
  | http status cnt =>
    simp only [netFailure, decide_eq_true_eq] at hfail
    simp [hfail, log_activity_transactions]
  | timeout => simp [log_activity_transactions]
  | client_error m => simp [log_activity_transactions]
  | other_exc m => simp [log_activity_transactions]

/-- C2 witness: a timeout against a store holding one pending transaction. -/
theorem c2_witness :
    (sync_offline_transactions .timeout 5 false dbOnePending).2.1.transactions
      = dbOnePending.transactions ∧
    ∃ reason, (sync_offline_transactions .timeout 5 false dbOnePending).2.2
      = SyncResult.error reason :=
  c2_failure_leaves_all_pending .timeout 5 dbOnePending (by decide) (by decide)

/-! ### C10: HTTP 200 marks everything, whatever the reported count -/

/-- C10: on any HTTP 200 response, `sync()` marks exactly the submitted
transaction ids — the resulting table equals `mark_transactions_synced`
on the full pending id list, independent of the reported `synced_count` —
every pending transaction's id is among them, and the reported count
(defaulting to the number submitted) flows only into the returned
result. -/
theorem c10_http200_marks_all_submitted (cnt : Option Int) (now : Nat) (db : DbState)
    (hpend : get_pending_transactions db ≠ []) :
    (sync_offline_transactions (.http 200 cnt) now false db).2.1.transactions
      = (mark_transactions_synced ((get_pending_transactions db).map (fun t => t.id))
          now db).transactions ∧
    (sync_offline_transactions (.http 200 cnt) now false db).2.2
      = .success (cnt.getD ((get_pending_transactions db).length : Int)) ∧
    ∀ t ∈ db.transactions, t.status = .pending →
      t.id ∈ (get_pending_transactions db).map (fun t => t.id) := by
  refine ⟨?_, ?_, ?_⟩
  · have h1 : (sync_offline_transactions (.http 200 cnt) now false db).2.1
        = log_activity "sync_complete" "completed"
            (some ("Synced "
              ++ toString (cnt.getD ((get_pending_transactions db).length : Int))
              ++ " transactions"))
            (mark_transactions_synced
              ((get_pending_transactions db).map (fun t => t.id)) now
              (log_activity "sync_start" "pending"
                (some ("Syncing " ++ toString (get_pending_transactions db).length
                  ++ " transactions")) db)) := by
      simp [sync_offline_transactions, if_neg hpend]
    rw [h1, log_activity_transactions, mark_transactions_synced_log_activity]
  · simp [sync_offline_transactions, if_neg hpend]
  · intro t ht hp
    have htf : t ∈ db.transactions.filter (fun t => decide (t.status = .pending)) :=
      List.mem_filter.mpr ⟨ht, by simp [hp]⟩
    have hto : t ∈ orderByCreatedAt
        (db.transactions.filter (fun t => decide (t.status = .pending))) :=
      (mem_orderByCreatedAt t _).mpr htf
    have : t.id ∈ (get_pending_transactions db).map (fun p => p.id) := by
      unfold get_pending_transactions
      rw [List.map_map]
      exact List.mem_map.mpr ⟨t, hto, rfl⟩
    exact this

/-- C10 witness: a 200 response reporting `synced_count = 99` against a
store with one pending transaction. -/
theorem c10_witness :
    (sync_offline_transactions (.http 200 (some 99)) 3 false dbOnePending).2.1.transactions
      = (mark_transactions_synced
          ((get_pending_transactions dbOnePending).map (fun t => t.id))
          3 dbOnePending).transactions ∧
    (sync_offline_transactions (.http 200 (some 99)) 3 false dbOnePending).2.2
      = .success ((some (99 : Int)).getD
          ((get_pending_transactions dbOnePending).length : Int)) ∧
    ∀ t ∈ dbOnePending.transactions, t.status = .pending →
      t.id ∈ (get_pending_transactions dbOnePending).map (fun t => t.id) :=
  c10_http200_marks_all_submitted (some 99) 3 dbOnePending (by decide)

/-! ### C7: pending() returns exactly the pending rows in creation order -/

/-- C7: when `created_at` is non-decreasing in rowid (creation) order —
which the monotone wall clock guarantees — `pending()` returns exactly
the transactions whose status is pending, in creation order, oldest
first. -/
theorem c7_pending_in_creation_order (db : DbState)
    (hs : db.transactions.Pairwise (fun a b => a.created_at ≤ b.created_at)) :
    get_pending_transactions db
      = (db.transactions.filter (fun t => decide (t.status = .pending))).map
          (fun t =>
            { id := t.id, session_id := t.session_id, user_id := t.user_id
              timestamp := t.timestamp, items := itemsFor db.items t.id }) := by
  unfold get_pending_transactions
  rw [orderByCreatedAt_eq_self _ (hs.sublist (List.filter_sublist _))]

/-- C7 witness: a store with one synced and two pending transactions
created at clock values 1 and 2. -/
theorem c7_witness :
    get_pending_transactions dbMixed
      = [{ id := 2, session_id := "offline-b", user_id := 7, timestamp := 1, items := [] },
         { id := 3, session_id := "offline-c", user_id := 7, timestamp := 2, items := [] }] := by
  rw [c7_pending_in_creation_order dbMixed (by decide)]
  decide

/-! ### C6: create -/

/-- C6 counterexample: with the cached system-donation user id present but
equal to `0`, `create_offline_transaction` still fails (the Python guard
`if not self.system_donation_user_id:` rejects `0`), refuting "fails
exactly when the cached id is absent". -/
theorem c6_counterexample :
    (create_offline_transaction [] "u" 0 none dbUserZero).1 = none ∧
    dbUserZero.system_donation_user_id ≠ none := by decide

/-- C6 amended: `create` fails (returns no session id) exactly when the
cached id is absent or zero, or when a storage write raises — a failure
at or before the commit (including the UNIQUE violation on a session id
already in the table) is rolled back leaving the store unchanged, while
a failure of the post-commit activity-log write returns no session id
although the transaction row and all item rows are already durable.
Whenever a session id is returned it has the form `offline-<uuid>`, it
equals no session id already stored (the UNIQUE constraint) — hence was
never previously returned — and the transaction row together with all of
its item rows has been persisted atomically. -/
theorem c6_create_persists_atomically (db : DbState) (items : List ItemInput)
    (uuid : String) (now : Nat) :
    ((db.system_donation_user_id = none ∨ db.system_donation_user_id = some 0) →
      ∀ failAt, create_offline_transaction items uuid now failAt db = (none, db)) ∧
    (∀ failAt s, (create_offline_transaction items uuid now failAt db).1 = some s →
      s = "offline-" ++ uuid ∧
      s ∉ db.transactions.map (fun t => t.session_id)) ∧
    (∀ u : Int, db.system_donation_user_id = some u → u ≠ 0 →
      ("offline-" ++ uuid) ∉ db.transactions.map (fun t => t.session_id) →
      (∀ k, k < items.length + 1 →
        create_offline_transaction items uuid now (some k) db = (none, db)) ∧
      (create_offline_transaction items uuid now (some (items.length + 1)) db).1
        = none ∧
      (create_offline_transaction items uuid now (some (items.length + 1)) db).2.transactions
        = db.transactions ++
            [{ id := db.next_tx_id, session_id := "offline-" ++ uuid, user_id := u
               status := .pending, timestamp := now, synced_at := none
               created_at := now }] ∧
      (create_offline_transaction items uuid now (some (items.length + 1)) db).2.items
        = db.items ++ itemRowsFor db.next_tx_id db.next_item_id items ∧
      (create_offline_transaction items uuid now (some (items.length + 1)) db).2.logs
        = db.logs ∧
      (create_offline_transaction items uuid now none db).1
        = some ("offline-" ++ uuid) ∧
      (create_offline_transaction items uuid now none db).2.transactions
        = db.transactions ++
            [{ id := db.next_tx_id, session_id := "offline-" ++ uuid, user_id := u
               status := .pending, timestamp := now, synced_at := none
               created_at := now }] ∧
      (create_offline_transaction items uuid now none db).2.items
        = db.items ++ itemRowsFor db.next_tx_id db.next_item_id items) ∧
    (∀ u : Int, db.system_donation_user_id = some u → u ≠ 0 →
      ("offline-" ++ uuid) ∈ db.transactions.map (fun t => t.session_id) →
      ∀ failAt, create_offline_transaction items uuid now failAt db = (none, db)) := by
  refine ⟨?_, ?_, ?_, ?_⟩
  · rintro (h0 | h0) failAt <;> simp [create_offline_transaction, h0]
  · intro failAt s hs
    rcases hdb : db.system_donation_user_id with _ | u
    · simp [create_offline_transaction, hdb] at hs
    · by_cases hu0 : u = 0
      · simp [create_offline_transaction, hdb, hu0] at hs
      · by_cases hcol : ("offline-" ++ uuid) ∈ db.transactions.map (fun t => t.session_id)
        · simp [create_offline_transaction, hdb, hu0, hcol] at hs
        · rcases failAt with _ | k
          · simp [create_offline_transaction, hdb, hu0, hcol] at hs
            exact ⟨hs.symm, hs ▸ hcol⟩
          · by_cases hk : k < items.length + 1
            · simp [create_offline_transaction, hdb, hu0, hcol, hk] at hs
            · by_cases hk2 : k = items.length + 1
              · simp [create_offline_transaction, hdb, hu0, hcol, hk, hk2] at hs
              · simp [create_offline_transaction, hdb, hu0, hcol, hk, hk2] at hs
                exact ⟨hs.symm, hs ▸ hcol⟩
  · intro u hu hu0 hcol
    refine ⟨?_, ?_, ?_, ?_, ?_, ?_, ?_, ?_⟩
    · intro k hk
      simp [create_offline_transaction, hu, hu0, hcol, hk]
    · simp [create_offline_transaction, hu, hu0, hcol]
    · simp [create_offline_transaction, hu, hu0, hcol]
    · simp [create_offline_transaction, hu, hu0, hcol]
    · simp [create_offline_transaction, hu, hu0, hcol]
    · simp [create_offline_transaction, hu, hu0, hcol, log_activity]
    · simp [create_offline_transaction, hu, hu0, hcol, log_activity]
    · simp [create_offline_transaction, hu, hu0, hcol, log_activity]
  · intro u hu hu0 hcol failAt
    simp [create_offline_transaction, hu, hu0, hcol]

/-- C6 witness: creation against an empty store with cached user id 7. -/
theorem c6_witness :
    (create_offline_transaction [mkItemInput ("PET", 12, 5)] "u" 0 none dbUserSeven).1
      = some ("offline-" ++ "u") :=
  ((c6_create_persists_atomically dbUserSeven [mkItemInput ("PET", 12, 5)] "u" 0).2.2.1
    7 rfl (by decide) (by decide)).2.2.2.2.2.1

/-! ### C8: items round-trip through create and pending -/

/-- C8: items supplied to `create` (each providing bottle_type, weight and
points) come back from `pending()` for that transaction unchanged and in
the same order.  Hypotheses: the cached id is present and non-zero, the
clock is monotone (`created_at` non-decreasing in rowid order and the new
row not older than any existing one), the AUTOINCREMENT transaction id is
fresh for the items table, and — so that the create succeeds — the fresh
session id does not collide with a stored one (UNIQUE column). -/
theorem c8_items_roundtrip (db : DbState) (items : List (String × Rat × Int))
    (uuid : String) (now : Nat) (u : Int)
    (hu : db.system_donation_user_id = some u) (hu0 : u ≠ 0)
    (hcol : ("offline-" ++ uuid) ∉ db.transactions.map (fun t => t.session_id))
    (hs : db.transactions.Pairwise (fun a b => a.created_at ≤ b.created_at))
    (hlast : ∀ t ∈ db.transactions, t.created_at ≤ now)
    (hfresh : ∀ it ∈ db.items, it.transaction_id ≠ db.next_tx_id) :
    ∃ l, get_pending_transactions
        (create_offline_transaction (items.map mkItemInput) uuid now none db).2
      = l ++ [{ id := db.next_tx_id, session_id := "offline-" ++ uuid, user_id := u
                timestamp := now, items := items }] := by
  have htr : (create_offline_transaction (items.map mkItemInput) uuid now none db).2.transactions
      = db.transactions ++
          [{ id := db.next_tx_id, session_id := "offline-" ++ uuid, user_id := u
             status := .pending, timestamp := now, synced_at := none
             created_at := now }] := by
    simp [create_offline_transaction, hu, hu0, hcol, log_activity]
  have hit : (create_offline_transaction (items.map mkItemInput) uuid now none db).2.items
      = db.items ++ itemRowsFor db.next_tx_id db.next_item_id (items.map mkItemInput) := by
    simp [create_offline_transaction, hu, hu0, hcol, log_activity]
  have hitems : itemsFor
      (db.items ++ itemRowsFor db.next_tx_id db.next_item_id (items.map mkItemInput))
      db.next_tx_id = items := by
    unfold itemsFor
    rw [List.filter_append]
    have h1 : db.items.filter (fun it => decide (it.transaction_id = db.next_tx_id)) = [] := by
      rw [List.filter_eq_nil_iff]
      intro it hmem
      simp [hfresh it hmem]
    have h2 : (itemRowsFor db.next_tx_id db.next_item_id (items.map mkItemInput)).filter
        (fun it => decide (it.transaction_id = db.next_tx_id))
        = itemRowsFor db.next_tx_id db.next_item_id (items.map mkItemInput) := by
      rw [List.filter_eq_self]
      intro r hr
      simp [itemRowsFor_transaction_id db.next_tx_id db.next_item_id _ r hr]
    rw [h1, h2, List.nil_append]
    exact itemRowsFor_roundtrip db.next_tx_id db.next_item_id items
  unfold get_pending_transactions
  rw [htr, hit, List.filter_append]
  have hnewfil : List.filter (fun t => decide (t.status = TxStatus.pending))
      [({ id := db.next_tx_id, session_id := "offline-" ++ uuid, user_id := u
          status := .pending, timestamp := now, synced_at := none
          created_at := now } : TxRow)]
      = [{ id := db.next_tx_id, session_id := "offline-" ++ uuid, user_id := u
           status := .pending, timestamp := now, synced_at := none
           created_at := now }] := by simp
  rw [hnewfil]
  have hsort : (db.transactions.filter (fun t => decide (t.status = TxStatus.pending)) ++
      [({ id := db.next_tx_id, session_id := "offline-" ++ uuid, user_id := u
          status := .pending, timestamp := now, synced_at := none
          created_at := now } : TxRow)]).Pairwise
        (fun a b => a.created_at ≤ b.created_at) := by
    apply List.pairwise_append.mpr
    refine ⟨hs.sublist (List.filter_sublist _), List.pairwise_singleton _ _, ?_⟩
    intro a ha b hb
    rw [List.mem_singleton] at hb
    subst hb
    exact hlast a (List.mem_of_mem_filter ha)
  rw [orderByCreatedAt_eq_self _ hsort, List.map_append]
  refine ⟨(db.transactions.filter (fun t => decide (t.status = TxStatus.pending))).map
      (fun t =>
        { id := t.id, session_id := t.session_id, user_id := t.user_id
          timestamp := t.timestamp
          items := itemsFor
            (db.items ++ itemRowsFor db.next_tx_id db.next_item_id (items.map mkItemInput))
            t.id }), ?_⟩
  congr 1
  simp only [List.map_cons, List.map_nil]
  rw [hitems]

/-- C8 witness: one PET item of weight 12 and 5 points round-trips through
an empty store with cached user id 7. -/
theorem c8_witness :
    ∃ l, get_pending_transactions
        (create_offline_transaction
          ([(("PET" : String), (12 : Rat), (5 : Int))].map mkItemInput) "u" 0 none
          dbUserSeven).2
      = l ++ [{ id := 1, session_id := "offline-" ++ "u", user_id := 7
                timestamp := 0, items := [("PET", 12, 5)] }] :=
  c8_items_roundtrip dbUserSeven [("PET", 12, 5)] "u" 0 7 rfl (by decide) (by decide)
    (by decide) (by decide) (by decide)
